import Mathlib

/-!
Shallow embedding of `src/ecg/ecg_filters.py` (ECG filter pipeline).

Python floats are modelled by `ℚ`; Python exceptions by `Except PyErr`;
the diagnostic `print` calls by an accumulated `List Msg`.  The external
SciPy routines (`iirnotch`, `butter`, `filtfilt`) are not code of this
repository: they are modelled by a record `SciPy` of fallible functions,
constrained only by the library's documented contract that a successful
`filtfilt` returns a buffer of the same length as its input.  All
repository functions are parameterised over such a record, so every
theorem quantifies over any behaviour of the library consistent with
that contract.

A filter selector is a Python `Optional[str]`.  The source only ever
distinguishes: a falsy value (`None` or `""`), the literal `"off"`, a
string that `float()` parses (to some finite value), and a string on
which `float()` raises.  `Selector` has exactly these four cases.

Object identity (needed for the "returns a new buffer" contract) is
tracked by a boolean flag on the pipeline's result: `true` exactly on
the return paths of the source that hand back the caller's own object
(only the early `return signal` for an ndarray shorter than 10
samples); every other path returns `np.array(...)`, `signal.copy()` or
a fresh `filtfilt` output.
-/

/-- Python exception classes that the embedded code can raise. -/
inductive PyErr where
  | zeroDivision
  | valueError
  | libError
deriving DecidableEq, Repr

/-- A filter selector as the source distinguishes it: falsy (`None` or
`""`), the literal `"off"`, a string parsing to a finite float, or a
non-empty string on which `float()` raises `ValueError`. -/
inductive Selector where
  | empty
  | off
  | num (q : ℚ)
  | malformed
deriving DecidableEq, Repr

namespace Selector

/-- Python truthiness of the selector (`if ac_filter:`): only `None`
and `""` are falsy. -/
def isTruthy : Selector → Bool
  | .empty => false
  | _ => true

/-- Python `float(selector)`: succeeds exactly on numeric strings,
raises `ValueError` (or `TypeError` for `None`, merged here) otherwise. -/
def parseFloat : Selector → Except PyErr ℚ
  | .num q => .ok q
  | _ => .error .valueError

end Selector

/-- The diagnostic messages printed by the three stages: the
invalid-frequency warning (with the requested frequency and sampling
rate) and the caught-exception error (with the selector and the
exception). -/
inductive Msg where
  | acInvalid (freq rate : ℚ)
  | emgInvalid (freq rate : ℚ)
  | dftInvalid (freq rate : ℚ)
  | acError (sel : Selector) (e : PyErr)
  | emgError (sel : Selector) (e : PyErr)
  | dftError (sel : Selector) (e : PyErr)
deriving DecidableEq, Repr

/-- Python float division: raises `ZeroDivisionError` on a zero
denominator, otherwise exact division (floats modelled by `ℚ`). -/
def pyDiv (x y : ℚ) : Except PyErr ℚ :=
  if y = 0 then .error .zeroDivision else .ok (x / y)

/-- Model of the external SciPy library.  Filter-design routines
return coefficient pairs `(b, a)` and may fail; `filtfilt` may fail
(e.g. its padlen check) but on success returns a buffer of the input's
length, which is its documented contract. -/
structure SciPy where
  iirnotch : ℚ → ℚ → Except PyErr (List ℚ × List ℚ)
  butter : ℕ → ℚ → Except PyErr (List ℚ × List ℚ)
  filtfilt : List ℚ × List ℚ → List ℚ → Except PyErr (List ℚ)
  filtfilt_length : ∀ ba x y, filtfilt ba x = .ok y → y.length = x.length

/-- Body of the `try:` block of `apply_ac_filter`
(`ecg_filters.py` lines 41-62): parse the selector, normalise by the
Nyquist frequency, range-check, design the notch filter, apply it
zero-phase.  An `.ok` result carries the buffer to return together
with any diagnostic printed on the way. -/
def acBody (S : SciPy) (signal : List ℚ) (sampling_rate : ℚ) (ac_filter : Selector) :
    Except PyErr (List ℚ × List Msg) :=
  match ac_filter.parseFloat with
  | .error e => .error e
  | .ok notch_freq =>
    let nyquist := sampling_rate / 2
    let quality_factor : ℚ := 30
    match pyDiv notch_freq nyquist with
    | .error e => .error e
    | .ok w0 =>
      if w0 ≤ 0 ∨ 1 ≤ w0 then
        .ok (signal, [Msg.acInvalid notch_freq sampling_rate])
      else
        match S.iirnotch w0 quality_factor with
        | .error e => .error e
        | .ok ba =>
          match S.filtfilt ba signal with
          | .error e => .error e
          | .ok filtered => .ok (filtered, [])

/-- `apply_ac_filter` (lines 26-66): identity on `"off"` or falsy
selectors; otherwise the `try:` body with every exception caught,
degrading to the unfiltered input plus an error message. -/
def apply_ac_filter (S : SciPy) (signal : List ℚ) (sampling_rate : ℚ)
    (ac_filter : Selector) : List ℚ × List Msg :=
  if ac_filter = .off ∨ ¬ ac_filter.isTruthy then (signal, [])
  else
    match acBody S signal sampling_rate ac_filter with
    | .ok r => r
    | .error e => (signal, [Msg.acError ac_filter e])

/-- Body of the `try:` block of `apply_emg_filter` (lines 84-104):
4th-order high-pass Butterworth at the normalised cutoff, applied
zero-phase. -/
def emgBody (S : SciPy) (signal : List ℚ) (sampling_rate : ℚ) (emg_filter : Selector) :
    Except PyErr (List ℚ × List Msg) :=
  match emg_filter.parseFloat with
  | .error e => .error e
  | .ok cutoff_freq =>
    let nyquist := sampling_rate / 2
    match pyDiv cutoff_freq nyquist with
    | .error e => .error e
    | .ok normalized_cutoff =>
      if normalized_cutoff ≤ 0 ∨ 1 ≤ normalized_cutoff then
        .ok (signal, [Msg.emgInvalid cutoff_freq sampling_rate])
      else
        match S.butter 4 normalized_cutoff with
        | .error e => .error e
        | .ok ba =>
          match S.filtfilt ba signal with
          | .error e => .error e
          | .ok filtered => .ok (filtered, [])

/-- `apply_emg_filter` (lines 69-108): identity on falsy or `"off"`
selectors; otherwise the `try:` body with every exception caught. -/
def apply_emg_filter (S : SciPy) (signal : List ℚ) (sampling_rate : ℚ)
    (emg_filter : Selector) : List ℚ × List Msg :=
  if ¬ emg_filter.isTruthy ∨ emg_filter = .off then (signal, [])
  else
    match emgBody S signal sampling_rate emg_filter with
    | .ok r => r
    | .error e => (signal, [Msg.emgError emg_filter e])

/-- Body of the `try:` block of `apply_dft_filter` (lines 126-146):
2nd-order high-pass Butterworth at the normalised cutoff, applied
zero-phase. -/
def dftBody (S : SciPy) (signal : List ℚ) (sampling_rate : ℚ) (dft_filter : Selector) :
    Except PyErr (List ℚ × List Msg) :=
  match dft_filter.parseFloat with
  | .error e => .error e
  | .ok cutoff_freq =>
    let nyquist := sampling_rate / 2
    match pyDiv cutoff_freq nyquist with
    | .error e => .error e
    | .ok normalized_cutoff =>
      if normalized_cutoff ≤ 0 ∨ 1 ≤ normalized_cutoff then
        .ok (signal, [Msg.dftInvalid cutoff_freq sampling_rate])
      else
        match S.butter 2 normalized_cutoff with
        | .error e => .error e
        | .ok ba =>
          match S.filtfilt ba signal with
          | .error e => .error e
          | .ok filtered => .ok (filtered, [])

/-- `apply_dft_filter` (lines 111-150): identity on `"off"` or falsy
selectors; otherwise the `try:` body with every exception caught. -/
def apply_dft_filter (S : SciPy) (signal : List ℚ) (sampling_rate : ℚ)
    (dft_filter : Selector) : List ℚ × List Msg :=
  if dft_filter = .off ∨ ¬ dft_filter.isTruthy then (signal, [])
  else
    match dftBody S signal sampling_rate dft_filter with
    | .ok r => r
    | .error e => (signal, [Msg.dftError dft_filter e])

/-- `apply_ecg_filters` (lines 153-199).  `isNdarray` records whether
the caller passed an `np.ndarray` (otherwise line 178 builds a fresh
array from it).  The result is the output buffer, the accumulated
diagnostics, and a flag that is `true` exactly when the returned
object is the caller's own input object: only the early
`return signal` at line 182 for an ndarray input can alias the
caller's buffer; all later paths go through `signal.copy()` (line 185)
or fresh `filtfilt` outputs. -/
def apply_ecg_filters (S : SciPy) (isNdarray : Bool) (signal : List ℚ)
    (sampling_rate : ℚ) (ac_filter emg_filter dft_filter : Selector) :
    List ℚ × List Msg × Bool :=
  if signal.length < 10 then (signal, [], isNdarray)
  else
    let filtered := signal
    let r1 := if dft_filter.isTruthy then
        apply_dft_filter S filtered sampling_rate dft_filter else (filtered, [])
    let r2 := if emg_filter.isTruthy then
        apply_emg_filter S r1.1 sampling_rate emg_filter else (r1.1, [])
    let r3 := if ac_filter.isTruthy then
        apply_ac_filter S r2.1 sampling_rate ac_filter else (r2.1, [])
    (r3.1, r1.2 ++ r2.2 ++ r3.2, false)

/-- A SciPy instance for concrete evaluation: designs always succeed
and `filtfilt` is the identity (trivially length-preserving). -/
def scipyId : SciPy where
  iirnotch := fun _ _ => .ok ([1], [1])
  butter := fun _ _ => .ok ([1], [1])
  filtfilt := fun _ x => .ok x
  filtfilt_length := fun _ x y h => by
    cases h
    rfl

/-- A SciPy instance whose `filtfilt` negates every sample: it
satisfies the length contract but is (like a real notch filter) not
the identity. -/
def scipyNeg : SciPy where
  iirnotch := fun _ _ => .ok ([1], [1])
  butter := fun _ _ => .ok ([1], [1])
  filtfilt := fun _ x => .ok (x.map (fun v => -v))
  filtfilt_length := fun _ x y h => by
    cases h
    exact List.length_map x _

/-- A concrete ten-sample buffer for witnesses. -/
def sig10 : List ℚ := [1, 2, 3, 4, 5, 6, 7, 8, 9, 10]

/-- A concrete three-sample buffer (below the minimum length). -/
def sig3 : List ℚ := [1, 2, 3]

/-! Helper lemmas shared by the claim theorems. -/

theorem apply_ac_filter_skip (S : SciPy) (sig : List ℚ) (r : ℚ) (sel : Selector)
    (h : sel = .off ∨ sel = .empty) : apply_ac_filter S sig r sel = (sig, []) := by
  rcases h with h | h <;> subst h <;> rfl

theorem apply_emg_filter_skip (S : SciPy) (sig : List ℚ) (r : ℚ) (sel : Selector)
    (h : sel = .off ∨ sel = .empty) : apply_emg_filter S sig r sel = (sig, []) := by
  rcases h with h | h <;> subst h <;> rfl

theorem apply_dft_filter_skip (S : SciPy) (sig : List ℚ) (r : ℚ) (sel : Selector)
    (h : sel = .off ∨ sel = .empty) : apply_dft_filter S sig r sel = (sig, []) := by
  rcases h with h | h <;> subst h <;> rfl

theorem acBody_ok_length (S : SciPy) (sig : List ℚ) (r : ℚ) (sel : Selector)
    (p : List ℚ × List Msg) (h : acBody S sig r sel = .ok p) :
    p.1.length = sig.length := by
  unfold acBody at h
  dsimp only at h
  repeat' split at h
  all_goals cases h
  · rfl
  · exact S.filtfilt_length _ _ _ (by assumption)

theorem emgBody_ok_length (S : SciPy) (sig : List ℚ) (r : ℚ) (sel : Selector)
    (p : List ℚ × List Msg) (h : emgBody S sig r sel = .ok p) :
    p.1.length = sig.length := by
  unfold emgBody at h
  dsimp only at h
  repeat' split at h
  all_goals cases h
  · rfl
  · exact S.filtfilt_length _ _ _ (by assumption)

theorem dftBody_ok_length (S : SciPy) (sig : List ℚ) (r : ℚ) (sel : Selector)
    (p : List ℚ × List Msg) (h : dftBody S sig r sel = .ok p) :
    p.1.length = sig.length := by
  unfold dftBody at h
  dsimp only at h
  repeat' split at h
  all_goals cases h
  · rfl
  · exact S.filtfilt_length _ _ _ (by assumption)

theorem apply_ac_filter_length (S : SciPy) (sig : List ℚ) (r : ℚ) (sel : Selector) :
    (apply_ac_filter S sig r sel).1.length = sig.length := by
  unfold apply_ac_filter
  split
  · rfl
  · split
    · exact acBody_ok_length S sig r sel _ (by assumption)
    · rfl

theorem apply_emg_filter_length (S : SciPy) (sig : List ℚ) (r : ℚ) (sel : Selector) :
    (apply_emg_filter S sig r sel).1.length = sig.length := by
  unfold apply_emg_filter
  split
  · rfl
  · split
    · exact emgBody_ok_length S sig r sel _ (by assumption)
    · rfl

theorem apply_dft_filter_length (S : SciPy) (sig : List ℚ) (r : ℚ) (sel : Selector) :
    (apply_dft_filter S sig r sel).1.length = sig.length := by
  unfold apply_dft_filter
  split
  · rfl
  · split
    · exact dftBody_ok_length S sig r sel _ (by assumption)
    · rfl

theorem Selector.eq_empty_of_not_truthy (sel : Selector) (h : sel.isTruthy = false) :
    sel = .empty := by
  cases sel <;> simp [Selector.isTruthy] at h ⊢

theorem ite_apply_dft (S : SciPy) (sig : List ℚ) (r : ℚ) (sel : Selector) :
    (if sel.isTruthy then apply_dft_filter S sig r sel else (sig, [])) =
      apply_dft_filter S sig r sel := by
  cases hsel : sel.isTruthy
  · rw [if_neg (by simp [hsel])]
    exact (apply_dft_filter_skip S sig r sel
      (Or.inr (Selector.eq_empty_of_not_truthy sel hsel))).symm
  · simp

theorem ite_apply_emg (S : SciPy) (sig : List ℚ) (r : ℚ) (sel : Selector) :
    (if sel.isTruthy then apply_emg_filter S sig r sel else (sig, [])) =
      apply_emg_filter S sig r sel := by
  cases hsel : sel.isTruthy
  · rw [if_neg (by simp [hsel])]
    exact (apply_emg_filter_skip S sig r sel
      (Or.inr (Selector.eq_empty_of_not_truthy sel hsel))).symm
  · simp

theorem ite_apply_ac (S : SciPy) (sig : List ℚ) (r : ℚ) (sel : Selector) :
    (if sel.isTruthy then apply_ac_filter S sig r sel else (sig, [])) =
      apply_ac_filter S sig r sel := by
  cases hsel : sel.isTruthy
  · rw [if_neg (by simp [hsel])]
    exact (apply_ac_filter_skip S sig r sel
      (Or.inr (Selector.eq_empty_of_not_truthy sel hsel))).symm
  · simp

/-- C1: for every buffer of at least 10 samples, every sampling rate
and all selectors, `apply_ecg_filters` equals the composition of the
three sub-filters in the fixed order DFT (baseline) first, then EMG
(muscle), then AC (notch) last, each receiving the running buffer.  A
stage whose selector is absent (falsy) is skipped by the orchestrator,
and such a stage is exactly the identity on the running buffer, so the
pipeline output coincides with the full composition. -/
theorem C1_fixed_order_composition (S : SciPy) (isNdarray : Bool) (sig : List ℚ)
    (r : ℚ) (ac emg dft : Selector) (h : 10 ≤ sig.length) :
    (apply_ecg_filters S isNdarray sig r ac emg dft).1 =
      (apply_ac_filter S
        (apply_emg_filter S
          (apply_dft_filter S sig r dft).1 r emg).1 r ac).1 := by
  unfold apply_ecg_filters
  rw [if_neg (by omega)]
  dsimp only
  rw [ite_apply_dft, ite_apply_emg, ite_apply_ac]

/-- C1 witness: a concrete ten-sample buffer at 500 Hz with the AC
stage at 50 Hz, the EMG stage off and the DFT stage absent. -/
theorem C1_fixed_order_composition_witness :
    10 ≤ sig10.length ∧
    (apply_ecg_filters scipyId true sig10 500 (.num 50) .off .empty).1 =
      (apply_ac_filter scipyId
        (apply_emg_filter scipyId
          (apply_dft_filter scipyId sig10 500 .empty).1 500 .off).1 500 (.num 50)).1 :=
  ⟨by decide, C1_fixed_order_composition scipyId true sig10 500 (.num 50) .off .empty
    (by decide)⟩

/-- C2: a buffer with fewer than 10 samples is returned unchanged by
`apply_ecg_filters`, with no diagnostics, for every sampling rate and
every combination of selectors (and the returned object is the input
itself when the input was an ndarray). -/
theorem C2_short_input_passthrough (S : SciPy) (isNdarray : Bool) (sig : List ℚ)
    (r : ℚ) (ac emg dft : Selector) (h : sig.length < 10) :
    apply_ecg_filters S isNdarray sig r ac emg dft = (sig, [], isNdarray) := by
  unfold apply_ecg_filters
  rw [if_pos h]

/-- C2 witness: a three-sample buffer with all three filters
requested is returned unchanged. -/
theorem C2_short_input_passthrough_witness :
    sig3.length < 10 ∧
    apply_ecg_filters scipyId true sig3 500 (.num 50) (.num 150) (.num (1/2)) =
      (sig3, [], true) :=
  ⟨by decide, C2_short_input_passthrough scipyId true sig3 500
    (.num 50) (.num 150) (.num (1/2)) (by decide)⟩

/-- C3: with all three selectors `"off"` the pipeline returns a buffer
whose contents equal the input, for every buffer and sampling rate;
and each individual sub-filter returns its input unchanged (with no
diagnostic) when its selector is `"off"` or absent. -/
theorem C3_off_identity (S : SciPy) (isNdarray : Bool) (sig : List ℚ) (r : ℚ) :
    (apply_ecg_filters S isNdarray sig r .off .off .off).1 = sig ∧
    apply_ac_filter S sig r .off = (sig, []) ∧
    apply_ac_filter S sig r .empty = (sig, []) ∧
    apply_emg_filter S sig r .off = (sig, []) ∧
    apply_emg_filter S sig r .empty = (sig, []) ∧
    apply_dft_filter S sig r .off = (sig, []) ∧
    apply_dft_filter S sig r .empty = (sig, []) := by
  refine ⟨?_, rfl, rfl, rfl, rfl, rfl, rfl⟩
  unfold apply_ecg_filters
  by_cases h : sig.length < 10
  · rw [if_pos h]
  · rw [if_neg h]
    rfl

/-- C6: the buffer returned by `apply_ecg_filters` always has the same
length as the input buffer, for every SciPy behaviour consistent with
the `filtfilt` length contract. -/
theorem C6_length_preserved (S : SciPy) (isNdarray : Bool) (sig : List ℚ) (r : ℚ)
    (ac emg dft : Selector) :
    (apply_ecg_filters S isNdarray sig r ac emg dft).1.length = sig.length := by
  unfold apply_ecg_filters
  split
  · rfl
  · dsimp only
    rw [ite_apply_dft, ite_apply_emg, ite_apply_ac]
    rw [apply_ac_filter_length, apply_emg_filter_length, apply_dft_filter_length]

/-- C8: the pipeline is deterministic: two invocations on equal
buffers with equal sampling rates and equal selectors produce
identical results (the embedded code is a pure function of its
arguments). -/
theorem C8_deterministic (S : SciPy) (isNdarray : Bool) (sigA sigB : List ℚ)
    (rA rB : ℚ) (acA emgA dftA acB emgB dftB : Selector)
    (hs : sigA = sigB) (hr : rA = rB) (ha : acA = acB) (he : emgA = emgB)
    (hd : dftA = dftB) :
    apply_ecg_filters S isNdarray sigA rA acA emgA dftA =
      apply_ecg_filters S isNdarray sigB rB acB emgB dftB := by
  subst hs hr ha he hd
  rfl

/-- C8 witness: two invocations at a concrete buffer, rate and
selectors coincide. -/
theorem C8_deterministic_witness :
    apply_ecg_filters scipyId true sig10 500 (.num 50) .off (.num (1/2)) =
      apply_ecg_filters scipyId true sig10 500 (.num 50) .off (.num (1/2)) :=
  C8_deterministic scipyId true sig10 sig10 500 500 (.num 50) .off (.num (1/2))
    (.num 50) .off (.num (1/2)) rfl rfl rfl rfl rfl

/-- C4: for each of the three stages independently, when the requested
frequency divided by the Nyquist frequency (`sampling_rate / 2`) is
≤ 0 or ≥ 1, the stage returns its input buffer unchanged together with
exactly the invalid-frequency diagnostic, and (being a total function)
raises no error to the caller. -/
theorem C4_out_of_range_diagnostic (S : SciPy) (sig : List ℚ) (r f : ℚ)
    (hr : r ≠ 0) (hw : f / (r / 2) ≤ 0 ∨ 1 ≤ f / (r / 2)) :
    apply_ac_filter S sig r (.num f) = (sig, [Msg.acInvalid f r]) ∧
    apply_emg_filter S sig r (.num f) = (sig, [Msg.emgInvalid f r]) ∧
    apply_dft_filter S sig r (.num f) = (sig, [Msg.dftInvalid f r]) := by
  have h2 : r / 2 ≠ 0 := by
    intro h0
    exact hr (by linarith [(div_eq_zero_iff.mp h0)])
  refine ⟨?_, ?_, ?_⟩ <;>
    simp [apply_ac_filter, acBody, apply_emg_filter, emgBody, apply_dft_filter,
      dftBody, Selector.parseFloat, Selector.isTruthy, pyDiv, h2, hw]

/-- C4 witness: sampling rate 100 Hz with a 60 Hz request gives a
normalised frequency of 6/5 ≥ 1; each stage returns the input with
its diagnostic. -/
theorem C4_out_of_range_diagnostic_witness :
    (100 : ℚ) ≠ 0 ∧ ((60 : ℚ) / (100 / 2) ≤ 0 ∨ 1 ≤ (60 : ℚ) / (100 / 2)) ∧
    (apply_ac_filter scipyId sig10 100 (.num 60) = (sig10, [Msg.acInvalid 60 100]) ∧
     apply_emg_filter scipyId sig10 100 (.num 60) = (sig10, [Msg.emgInvalid 60 100]) ∧
     apply_dft_filter scipyId sig10 100 (.num 60) = (sig10, [Msg.dftInvalid 60 100])) :=
  ⟨by norm_num, by norm_num,
    C4_out_of_range_diagnostic scipyId sig10 100 60 (by norm_num) (by norm_num)⟩

/-- C5: any exception raised inside a stage's `try:` body (filter
construction or application, including a selector that does not parse
as a float) is caught within that stage and the stage returns its
input buffer; with every stage total, no exception propagates out of
`apply_ecg_filters` — in particular a pipeline run whose three
selectors all fail to parse still returns the input buffer. -/
theorem C5_exceptions_caught :
    (∀ (S : SciPy) (sig : List ℚ) (r : ℚ) (sel : Selector) (e : PyErr),
      acBody S sig r sel = .error e → (apply_ac_filter S sig r sel).1 = sig) ∧
    (∀ (S : SciPy) (sig : List ℚ) (r : ℚ) (sel : Selector) (e : PyErr),
      emgBody S sig r sel = .error e → (apply_emg_filter S sig r sel).1 = sig) ∧
    (∀ (S : SciPy) (sig : List ℚ) (r : ℚ) (sel : Selector) (e : PyErr),
      dftBody S sig r sel = .error e → (apply_dft_filter S sig r sel).1 = sig) ∧
    (∀ (S : SciPy) (isNdarray : Bool) (sig : List ℚ) (r : ℚ),
      (apply_ecg_filters S isNdarray sig r .malformed .malformed .malformed).1 = sig) := by
  refine ⟨?_, ?_, ?_, ?_⟩
  · intro S sig r sel e h
    unfold apply_ac_filter
    split
    · rfl
    · rw [h]
  · intro S sig r sel e h
    unfold apply_emg_filter
    split
    · rfl
    · rw [h]
  · intro S sig r sel e h
    unfold apply_dft_filter
    split
    · rfl
    · rw [h]
  · intro S isNdarray sig r
    unfold apply_ecg_filters
    by_cases h : sig.length < 10
    · rw [if_pos h]
    · rw [if_neg h]
      rfl

/-- C5 witness: a malformed selector makes the AC body raise
`ValueError`; the stage and the whole pipeline still return the
input buffer. -/
theorem C5_exceptions_caught_witness :
    (apply_ac_filter scipyId sig10 500 .malformed).1 = sig10 ∧
    (apply_ecg_filters scipyId true sig10 500 .malformed .malformed .malformed).1 =
      sig10 :=
  ⟨C5_exceptions_caught.1 scipyId sig10 500 .malformed .valueError rfl,
   C5_exceptions_caught.2.2.2 scipyId true sig10 500⟩

/-- C7 counterexample: for an ndarray input of three samples the early
length guard hands back the caller's own object (aliasing flag
`true`), so the returned buffer is not a distinct object from the
input, contradicting the claim for every input. -/
theorem C7_counterexample :
    (apply_ecg_filters scipyId true sig3 500 .empty .empty .empty).2.2 = true := by
  decide

/-- C7 amended: the pipeline never mutates the caller's buffer (the
embedding is pure and every path copies before filtering); the
returned buffer is a distinct object from the input whenever the input
is not an ndarray or has at least 10 samples, while an ndarray input
with fewer than 10 samples is returned as the very same object with
contents unchanged. -/
theorem C7_fresh_buffer (S : SciPy) (isNdarray : Bool) (sig : List ℚ) (r : ℚ)
    (ac emg dft : Selector) :
    (isNdarray = false ∨ 10 ≤ sig.length →
      (apply_ecg_filters S isNdarray sig r ac emg dft).2.2 = false) ∧
    (isNdarray = true → sig.length < 10 →
      apply_ecg_filters S isNdarray sig r ac emg dft = (sig, [], true)) := by
  constructor
  · intro h
    unfold apply_ecg_filters
    by_cases hl : sig.length < 10
    · rw [if_pos hl]
      rcases h with h | h
      · exact h
      · omega
    · rw [if_neg hl]
  · intro h1 h2
    unfold apply_ecg_filters
    rw [if_pos h2, h1]

/-- C7 witness: a non-ndarray three-sample input yields a fresh
buffer. -/
theorem C7_fresh_buffer_witness :
    (apply_ecg_filters scipyId false sig3 500 .empty .empty .empty).2.2 = false :=
  (C7_fresh_buffer scipyId false sig3 500 .empty .empty .empty).1 (Or.inl rfl)

/-- C9: when the selector is a numeric in-range frequency, the EMG
stage designs a 4th-order Butterworth filter at the normalised cutoff
and the DFT stage a 2nd-order one, and each hands those coefficients
to `filtfilt` (zero-phase forward-backward filtering), returning its
output. -/
theorem C9_butterworth_design (S : SciPy) (sig : List ℚ) (r f : ℚ)
    (ba4 ba2 : List ℚ × List ℚ) (y4 y2 : List ℚ)
    (hr : r ≠ 0) (h0 : 0 < f / (r / 2)) (h1 : f / (r / 2) < 1)
    (hb4 : S.butter 4 (f / (r / 2)) = .ok ba4)
    (hf4 : S.filtfilt ba4 sig = .ok y4)
    (hb2 : S.butter 2 (f / (r / 2)) = .ok ba2)
    (hf2 : S.filtfilt ba2 sig = .ok y2) :
    apply_emg_filter S sig r (.num f) = (y4, []) ∧
    apply_dft_filter S sig r (.num f) = (y2, []) := by
  have h2 : r / 2 ≠ 0 := by
    intro h0'
    exact hr (by linarith [(div_eq_zero_iff.mp h0')])
  have hguard : ¬(f / (r / 2) ≤ 0 ∨ 1 ≤ f / (r / 2)) := by
    push_neg
    exact ⟨h0, h1⟩
  constructor
  · simp [apply_emg_filter, emgBody, Selector.parseFloat, Selector.isTruthy,
      pyDiv, h2, hguard, hb4, hf4]
  · simp [apply_dft_filter, dftBody, Selector.parseFloat, Selector.isTruthy,
      pyDiv, h2, hguard, hb2, hf2]

/-- C9 witness: at 500 Hz with a 150 Hz cutoff (normalised 3/5) and
the identity SciPy instance, both stages return the `filtfilt`
output. -/
theorem C9_butterworth_design_witness :
    apply_emg_filter scipyId sig10 500 (.num 150) = (sig10, []) ∧
    apply_dft_filter scipyId sig10 500 (.num 150) = (sig10, []) :=
  C9_butterworth_design scipyId sig10 500 150 ([1], [1]) ([1], [1]) sig10 sig10
    (by norm_num) (by norm_num) (by norm_num) rfl rfl rfl rfl

/-- C10 counterexample: with sampling rate −100 and selector "−5" the
normalised frequency is (−5)/(−50) = 1/10, inside (0, 1), so the AC
stage is not skipped and genuinely filters: with a length-preserving
SciPy instance whose `filtfilt` negates each sample the output differs
from the input, contradicting the claim for arbitrary non-off numeric
selectors. -/
theorem C10_counterexample :
    (apply_ac_filter scipyNeg sig10 (-100) (.num (-5))).1 ≠ sig10 := by
  have hmap : (apply_ac_filter scipyNeg sig10 (-100) (.num (-5))).1 =
      sig10.map (fun v => -v) := by
    norm_num [apply_ac_filter, acBody, pyDiv, Selector.parseFloat,
      Selector.isTruthy, scipyNeg]
    simp
  rw [hmap]
  norm_num [sig10]

/-- C10 amended: for every sampling rate ≤ 0 and every non-off
*positive* numeric selector, each of the three stages returns its
input buffer unchanged and raises no exception: a negative rate makes
the normalised frequency non-positive so the range guard skips the
stage, and a zero rate's division-by-zero error is caught by the
stage's fail-soft handler. -/
theorem C10_nonpositive_rate (S : SciPy) (sig : List ℚ) (r f : ℚ)
    (hr : r ≤ 0) (hf : 0 < f) :
    (apply_ac_filter S sig r (.num f)).1 = sig ∧
    (apply_emg_filter S sig r (.num f)).1 = sig ∧
    (apply_dft_filter S sig r (.num f)).1 = sig := by
  rcases eq_or_lt_of_le hr with h0 | hneg
  · subst h0
    refine ⟨?_, ?_, ?_⟩ <;>
      simp [apply_ac_filter, acBody, apply_emg_filter, emgBody, apply_dft_filter,
        dftBody, Selector.parseFloat, Selector.isTruthy, pyDiv]
  · have h2 : r / 2 < 0 := by linarith
    have hw : f / (r / 2) ≤ 0 ∨ 1 ≤ f / (r / 2) :=
      Or.inl (le_of_lt (div_neg_of_pos_of_neg hf h2))
    have h2' : r / 2 ≠ 0 := ne_of_lt h2
    refine ⟨?_, ?_, ?_⟩ <;>
      simp [apply_ac_filter, acBody, apply_emg_filter, emgBody, apply_dft_filter,
        dftBody, Selector.parseFloat, Selector.isTruthy, pyDiv, h2', hw]

/-- C10 witness: sampling rate −100 with a positive 50 Hz selector is
skipped by every stage. -/
theorem C10_nonpositive_rate_witness :
    (apply_ac_filter scipyId sig10 (-100) (.num 50)).1 = sig10 ∧
    (apply_emg_filter scipyId sig10 (-100) (.num 50)).1 = sig10 ∧
    (apply_dft_filter scipyId sig10 (-100) (.num 50)).1 = sig10 :=
  C10_nonpositive_rate scipyId sig10 (-100) 50 (by decide) (by decide)
